import Mathlib

/-!
# HotelIQ Revenue Management — verification of the spec against the code

Shallow embedding of the core components of the HotelIQ backend:

* `app/utils/metrics_calculator.py` — `MetricsCalculator.calculate_daily_metrics`
* `app/services/data_validator.py` — `BookingDataValidator.validate_dataframe`,
  `clean_dataframe`, `DataQualityReport`
* `app/services/feature_engineering.py` — `FeatureEngineer.create_*_features`
* `app/services/etl_pipeline.py` — `ETLPipeline.transform`, `load_to_database`,
  `run_full_pipeline`, `extract_from_database`

Modelling conventions:
* Python `float` prices are modelled as exact rationals (`Rat`); where the code
  can produce IEEE special values (division by zero in pandas), values live in
  `PFloat` (a rational extended with `inf`/`ninf`/`nan`) with the pandas
  semantics of zero division made explicit.
* `date` columns are day numbers (`Int`, days since 1970-01-01); `datetime`
  values are modelled at day granularity (`Int`), which is the granularity at
  which the code consumes them (`.days`, `.dt.days`, `.dt.dayofweek`, …).
* The SQLAlchemy session is a `Store` record of lists; queries become list
  filters, `db.add` an append, and commits are implicit (they always succeed
  in the model; no claim concerns commit failure).
* `round(x, 2)` is round-half-to-even at two decimals on exact rationals.
* DataFrames are a record of a column-name list plus typed rows.  The model's
  input space is restricted to frames whose cells are well-typed and non-null:
  the validator's null-count check (check 3) and date-parse check (check 4)
  therefore never fire, which no claim below depends on.
-/

/-! ## Numeric helpers -/

/-- Round half to even (banker's rounding), as Python's builtin `round`. -/
def roundHalfEven (x : Rat) : Int :=
  let f : Int := ⌊x⌋
  let frac : Rat := x - (f : Rat)
  if frac < 1/2 then f
  else if 1/2 < frac then f + 1
  else if f % 2 = 0 then f else f + 1

/-- Python's `round(x, 2)`. -/
def roundTo2 (x : Rat) : Rat := (roundHalfEven (x * 100) : Rat) / 100

/-- A pandas float cell: an exact rational or one of the IEEE special values
that pandas produces on division by zero. -/
inductive PFloat where
  | val (x : Rat)
  | inf
  | ninf
  | nan
deriving DecidableEq, Repr

/-- Pandas elementwise division of two (finite) float cells: division by zero
yields `inf`/`-inf`/`nan` instead of raising. -/
def pdiv (p l : Rat) : PFloat :=
  if l ≠ 0 then .val (p / l)
  else if 0 < p then .inf
  else if p < 0 then .ninf
  else .nan

/-- Multiplication of a pandas cell by a positive rational constant
(used only with the constant `100`). -/
def pscale (c : Rat) : PFloat → PFloat
  | .val x => .val (c * x)
  | .inf => .inf
  | .ninf => .ninf
  | .nan => .nan

/-- `Series.round(2)` on a pandas cell: special values are left alone. -/
def proundTo2 : PFloat → PFloat
  | .val x => .val (roundTo2 x)
  | .inf => .inf
  | .ninf => .ninf
  | .nan => .nan

/-- `Series.clip(lower=0)`: `NaN` stays `NaN`, `-inf` clips to `0`. -/
def pclipLower0 : PFloat → PFloat
  | .val x => .val (max 0 x)
  | .inf => .inf
  | .ninf => .val 0
  | .nan => .nan

/-! ## Store entities (`backend/app/models/hotel.py`)

Primary keys (`id` columns of `Booking`/`DailyMetrics`) are assigned by the
database and never read by the verified logic, so they are omitted. -/

/-- `Hotel` ORM entity (the fields consumed by the verified components). -/
structure Hotel where
  id : Nat
  total_rooms : Nat
deriving DecidableEq, Repr

/-- `Booking` ORM entity. -/
structure Booking where
  hotel_id : Nat
  room_id : Nat
  check_in_date : Int
  check_out_date : Int
  guest_name : String
  guest_email : String
  num_guests : Int
  booking_price : Rat
  base_price : Rat
  booking_date : Int
  booking_source : String
  status : String
deriving DecidableEq, Repr

/-- `DailyMetrics` ORM entity. -/
structure DailyMetrics where
  hotel_id : Nat
  date : Int
  occupancy_rate : Rat
  rooms_occupied : Nat
  rooms_available : Nat
  total_revenue : Rat
  average_daily_rate : Rat
  revenue_per_available_room : Rat
  booking_count : Nat
  cancellation_count : Nat
  calculated_at : Nat
deriving DecidableEq, Repr

/-- The database session's view of the store: the three tables the verified
components touch. -/
structure Store where
  hotels : List Hotel
  bookings : List Booking
  metrics : List DailyMetrics
deriving DecidableEq, Repr

deriving instance DecidableEq for Except

/-! ## `MetricsCalculator.calculate_daily_metrics`
(`app/utils/metrics_calculator.py`, lines 14–104) -/

/-- The booking filter of lines 24–31: active on `target_date` for this hotel
with status in `{confirmed, completed}`. -/
def isActive (hid : Nat) (d : Int) (b : Booking) : Bool :=
  b.hotel_id == hid && b.check_in_date ≤ d && d < b.check_out_date &&
    (b.status == "confirmed" || b.status == "completed")

/-- `db.query(Booking).filter(...).all()` of lines 24–31. -/
def activeBookings (bs : List Booking) (hid : Nat) (d : Int) : List Booking :=
  bs.filter (isActive hid d)

/-- `(b.check_out_date - b.check_in_date).days`: the booking's stay length in
nights. -/
def nights (b : Booking) : Int := b.check_out_date - b.check_in_date

/-- Lines 39–42: the day's prorated revenue.  For active bookings the
denominator is at least 1 (the Python code would raise `ZeroDivisionError`
otherwise; `Rat` division is total, and the sum is only ever taken over
active bookings). -/
def dailyRevenue (bs : List Booking) : Rat :=
  (bs.map (fun b => b.booking_price / ((nights b : Int) : Rat))).sum

/-- Lines 51–56: bookings arriving exactly on the target date (any status). -/
def bookingCount (bs : List Booking) (hid : Nat) (d : Int) : Nat :=
  (bs.filter (fun b => b.hotel_id == hid && b.check_in_date == d)).length

/-- Lines 58–64: cancelled bookings arriving exactly on the target date. -/
def cancellationCount (bs : List Booking) (hid : Nat) (d : Int) : Nat :=
  (bs.filter (fun b =>
    (b.hotel_id == hid && b.check_in_date == d) && b.status == "cancelled")).length

/-- The pure metric computation of lines 33–64 and 76–98 (both the update and
the create branch fill exactly these fields; `calculated_at` is the wall-clock
`now` in both branches). -/
def computeMetric (h : Hotel) (bs : List Booking) (hid : Nat) (d : Int)
    (now : Nat) : DailyMetrics :=
  let act := activeBookings bs hid d
  let rooms_occupied := act.length
  let rooms_available := h.total_rooms
  let occupancy_rate : Rat :=
    if 0 < rooms_available then
      (rooms_occupied : Rat) / (rooms_available : Rat) * 100 else 0
  let rev := dailyRevenue act
  let adr : Rat := if 0 < rooms_occupied then rev / (rooms_occupied : Rat) else 0
  let revpar : Rat :=
    if 0 < rooms_available then rev / (rooms_available : Rat) else 0
  { hotel_id := hid
    date := d
    occupancy_rate := roundTo2 occupancy_rate
    rooms_occupied := rooms_occupied
    rooms_available := rooms_available
    total_revenue := roundTo2 rev
    average_daily_rate := roundTo2 adr
    revenue_per_available_room := roundTo2 revpar
    booking_count := bookingCount bs hid d
    cancellation_count := cancellationCount bs hid d
    calculated_at := now }

/-- Lines 67–99: find the first stored metric with this (hotel, date) key and
overwrite its fields in place, else append a fresh row. -/
def upsertMetric (ms : List DailyMetrics) (m : DailyMetrics) :
    List DailyMetrics :=
  match ms with
  | [] => [m]
  | x :: xs =>
      if x.hotel_id == m.hotel_id && x.date == m.date then m :: xs
      else x :: upsertMetric xs m

/-- `MetricsCalculator.calculate_daily_metrics`.  The `ValueError` of line 21
becomes the `error` branch; on success the updated store and the stored
snapshot are returned. -/
def calculate_daily_metrics (s : Store) (hid : Nat) (d : Int) (now : Nat) :
    Except String (Store × DailyMetrics) :=
  match s.hotels.find? (fun h => h.id == hid) with
  | none => .error "Hotel not found"
  | some h =>
      let m := computeMetric h s.bookings hid d now
      .ok ({ s with metrics := upsertMetric s.metrics m }, m)

/-! ## `BookingDataValidator` (`app/services/data_validator.py`)

A DataFrame is a list of column names plus typed rows.  A row carries a cell
for every possible column; cells of columns not listed in `columns` are
phantom values that none of the verified code paths read. -/

/-- One row of a booking batch. -/
structure Row where
  hotel_id : Nat
  room_id : Nat
  check_in_date : Int
  check_out_date : Int
  guest_name : String
  guest_email : String
  num_guests : Int
  booking_price : Rat
  base_price : Rat
  booking_date : Int
  booking_source : String
  status : String
deriving DecidableEq, Repr

/-- A pandas DataFrame of booking rows. -/
structure DFrame where
  columns : List String
  rows : List Row
deriving DecidableEq, Repr

/-- The validator's messages.  The Python code builds f-strings; the model
keeps the message kind together with the numbers/names interpolated into it. -/
inductive Msg where
  | missingColumns (cols : List String)
  | emptyFrame
  | invalidDates (count : Nat)
  | invalidPrices (count : Nat)
  | invalidGuests (count : Nat)
  | duplicates (count : Nat)
  | outliers (count : Nat)
  | allColumnsPresent (totalRows : Nat)
  | validationPassed
deriving DecidableEq, Repr

/-- The `report.stats` dictionary (built at lines 111–125). -/
structure ValidationStats where
  total_records : Nat
  earliest_check_in : Option Int
  latest_check_out : Option Int
  price_min : Rat
  price_max : Rat
  price_mean : Rat
  price_median : Rat
  unique_hotels : Nat
  unique_rooms : Nat
deriving DecidableEq, Repr

/-- `DataQualityReport`; the empty `stats` dict is `none`. -/
structure DataQualityReport where
  errors : List Msg
  warnings : List Msg
  info : List Msg
  stats : Option ValidationStats
deriving DecidableEq, Repr

/-- `DataQualityReport.is_valid` (line 25–26). -/
def DataQualityReport.is_valid (r : DataQualityReport) : Bool :=
  r.errors.isEmpty

def REQUIRED_COLUMNS : List String :=
  ["hotel_id", "room_id", "check_in_date", "check_out_date",
   "guest_name", "num_guests", "booking_price", "base_price"]

def OPTIONAL_COLUMNS : List String :=
  ["guest_email", "booking_source", "status", "booking_date"]

/-- The dedup key `(hotel_id, room_id, check_in_date)`. -/
def rowKey (r : Row) : Nat × Nat × Int := (r.hotel_id, r.room_id, r.check_in_date)

/-- Number of rows of `rows` sharing the key `k`. -/
def keyCount (rows : List Row) (k : Nat × Nat × Int) : Nat :=
  (rows.filter (fun r => rowKey r == k)).length

/-- `df.duplicated(subset=[...], keep=False).sum()` (line 99): every member of
a key group of size at least 2 is flagged. -/
def dupFlagCount (rows : List Row) : Nat :=
  (rows.filter (fun r => 2 ≤ keyCount rows (rowKey r))).length

/-- Check 5 (line 84): rows with `check_out_date <= check_in_date`. -/
def invalidDatesCount (rows : List Row) : Nat :=
  (rows.filter (fun r => r.check_out_date ≤ r.check_in_date)).length

/-- Check 6 (line 89): rows with a non-positive price. -/
def invalidPricesCount (rows : List Row) : Nat :=
  (rows.filter (fun r =>
    decide (r.booking_price ≤ 0) || decide (r.base_price ≤ 0))).length

/-- Check 7 (line 94): rows with a non-positive guest count. -/
def invalidGuestsCount (rows : List Row) : Nat :=
  (rows.filter (fun r => r.num_guests ≤ 0)).length

/-- Check 9 (lines 104–106): `price > mean + 3*std` with the sample standard
deviation (`ddof=1`).  Squaring both sides (`p − mean > 0 ∧ (p − mean)² > 9·σ²`)
expresses the same comparison without leaving the rationals; with one row the
standard deviation is `NaN` and the comparison is false for every row. -/
def outlierCount (rows : List Row) : Nat :=
  let prices := rows.map (·.booking_price)
  let n := prices.length
  let pm := prices.sum / (n : Rat)
  if n ≤ 1 then 0
  else
    let v := (prices.map (fun p => (p - pm) ^ 2)).sum / ((n : Rat) - 1)
    (prices.filter (fun p =>
      decide (0 < p - pm) && decide (9 * v < (p - pm) ^ 2))).length

/-- Insertion of a rational into a sorted list (for the median). -/
def insertRat (x : Rat) : List Rat → List Rat
  | [] => [x]
  | y :: ys => if x ≤ y then x :: y :: ys else y :: insertRat x ys

/-- Ascending sort of a list of rationals. -/
def sortRat (l : List Rat) : List Rat := l.foldr insertRat []

/-- `Series.median()` on a nonempty column: middle element, or the mean of the
two middle elements for an even length. -/
def ratMedian (l : List Rat) : Rat :=
  let s := sortRat l
  let n := s.length
  if n % 2 = 1 then s.getD (n / 2) 0
  else (s.getD (n / 2 - 1) 0 + s.getD (n / 2) 0) / 2

/-- Fold-style minimum of an `Int` column (`none` on an empty column). -/
def intMin? : List Int → Option Int
  | [] => none
  | x :: xs => some (xs.foldl min x)

/-- Fold-style maximum of an `Int` column. -/
def intMax? : List Int → Option Int
  | [] => none
  | x :: xs => some (xs.foldl max x)

/-- Fold-style minimum of a nonempty `Rat` column (pandas `Series.min()`). -/
def ratMin (l : List Rat) : Rat :=
  match l with
  | [] => 0
  | x :: xs => xs.foldl min x

/-- Fold-style maximum of a nonempty `Rat` column. -/
def ratMax (l : List Rat) : Rat :=
  match l with
  | [] => 0
  | x :: xs => xs.foldl max x

/-- `Series.nunique()`: number of distinct values. -/
def countUnique (l : List Nat) : Nat :=
  (l.foldl (fun acc x => if acc.contains x then acc else acc ++ [x]) []).length

/-- Lines 111–125: the statistics block (always computed once the frame has
all required columns and at least one row). -/
def mkStats (rows : List Row) : ValidationStats :=
  { total_records := rows.length
    earliest_check_in := intMin? (rows.map (·.check_in_date))
    latest_check_out := intMax? (rows.map (·.check_out_date))
    price_min := ratMin (rows.map (·.booking_price))
    price_max := ratMax (rows.map (·.booking_price))
    price_mean := (rows.map (·.booking_price)).sum / (rows.length : Rat)
    price_median := ratMedian (rows.map (·.booking_price))
    unique_hotels := countUnique (rows.map (·.hotel_id))
    unique_rooms := countUnique (rows.map (·.room_id)) }

/-- `BookingDataValidator.validate_dataframe` (lines 50–130).  Check 3 (null
counts) finds no nulls in the typed model and check 4 (date parsing) is a
no-op on already-typed date columns; neither can add an error here. -/
def validate_dataframe (df : DFrame) : DataQualityReport :=
  let missing := REQUIRED_COLUMNS.filter (fun c => !(df.columns.contains c))
  if !missing.isEmpty then
    { errors := [.missingColumns missing], warnings := [], info := [],
      stats := none }
  else
    let info1 := [Msg.allColumnsPresent df.rows.length]
    if df.rows.isEmpty then
      { errors := [.emptyFrame], warnings := [], info := info1, stats := none }
    else
      let errs : List Msg :=
        (if 0 < invalidDatesCount df.rows then
          [.invalidDates (invalidDatesCount df.rows)] else [])
        ++ (if 0 < invalidPricesCount df.rows then
          [.invalidPrices (invalidPricesCount df.rows)] else [])
        ++ (if 0 < invalidGuestsCount df.rows then
          [.invalidGuests (invalidGuestsCount df.rows)] else [])
      let warns : List Msg :=
        (if 0 < dupFlagCount df.rows then
          [.duplicates (dupFlagCount df.rows)] else [])
        ++ (if 0 < outlierCount df.rows then
          [.outliers (outlierCount df.rows)] else [])
      { errors := errs
        warnings := warns
        info := info1 ++ (if errs.isEmpty then [Msg.validationPassed] else [])
        stats := some (mkStats df.rows) }

/-- Lines 140–157 of `clean_dataframe`, applied to one row: fill the optional
columns that are absent (`booking_source → "direct"`, `status → "confirmed"`,
`booking_date → now`), then strip whitespace from the string columns. -/
def cleanRow (cols : List String) (now : Int) (r : Row) : Row :=
  let r1 := { r with
    booking_source :=
      if cols.contains "booking_source" then r.booking_source else "direct"
    status := if cols.contains "status" then r.status else "confirmed"
    booking_date :=
      if cols.contains "booking_date" then r.booking_date else now }
  { r1 with
    guest_name := r1.guest_name.trim
    guest_email := r1.guest_email.trim
    booking_source := r1.booking_source.trim
    status := r1.status.trim }

/-- `df.drop_duplicates(subset=['hotel_id','room_id','check_in_date'],
keep='first')` (lines 160–163): keep each row whose key has not occurred
before it. -/
def dropDupKeys : List Row → List Row
  | [] => []
  | r :: rs => r :: dropDupKeys (rs.filter (fun x => !(rowKey x == rowKey r)))
termination_by l => l.length
decreasing_by
  simp only [List.length_cons]
  exact Nat.lt_succ_of_le (List.length_filter_le _ _)

/-- `BookingDataValidator.clean_dataframe` (lines 132–165). -/
def clean_dataframe (df : DFrame) (now : Int) : DFrame :=
  { columns := df.columns
      ++ (if df.columns.contains "booking_source" then [] else ["booking_source"])
      ++ (if df.columns.contains "status" then [] else ["status"])
      ++ (if df.columns.contains "booking_date" then [] else ["booking_date"])
    rows := dropDupKeys (df.rows.map (cleanRow df.columns now)) }

/-! ## Calendar helpers

`check_in_date` etc. are day numbers since 1970-01-01.  The civil-calendar
conversions below are the standard era-based algorithms; `Int` division in
Lean is euclidean, which agrees with floor division for the positive divisors
used here. -/

/-- Day number → `(year, month, day)` of the proleptic Gregorian calendar. -/
def civilFromDays (z0 : Int) : Int × Nat × Nat :=
  let z := z0 + 719468
  let era := z / 146097
  let doe := z - era * 146097
  let yoe := (doe - doe / 1460 + doe / 36524 - doe / 146096) / 365
  let y := yoe + era * 400
  let doy := doe - (365 * yoe + yoe / 4 - yoe / 100)
  let mp := (5 * doy + 2) / 153
  let d := doy - (153 * mp + 2) / 5 + 1
  let m := if mp < 10 then mp + 3 else mp - 9
  (y + (if m ≤ 2 then 1 else 0), m.toNat, d.toNat)

/-- `(year, month, day)` → day number since 1970-01-01. -/
def daysFromCivil (y0 : Int) (m d : Nat) : Int :=
  let y := y0 - (if m ≤ 2 then 1 else 0)
  let era := y / 400
  let yoe := y - era * 400
  let doy := (153 * (if 2 < m then (m : Int) - 3 else (m : Int) + 9) + 2) / 5
    + (d : Int) - 1
  let doe := yoe * 365 + yoe / 4 - yoe / 100 + doy
  era * 146097 + doe - 719468

/-- `Series.dt.dayofweek`: Monday = 0, …, Sunday = 6. -/
def dayOfWeek (z : Int) : Nat := ((z + 3) % 7).toNat

/-- `Series.dt.isocalendar().week`: ISO-8601 week number via the Thursday of
the date's week. -/
def isoWeek (z : Int) : Nat :=
  let th := z + 3 - ((z + 3) % 7)
  let y := (civilFromDays th).1
  ((th - daysFromCivil y 1 1) / 7 + 1).toNat

/-- `Series.dt.quarter`. -/
def quarterOfMonth (m : Nat) : Nat := (m - 1) / 3 + 1

/-- The `season` dictionary of lines 34–39 under pandas `.map` semantics: a
month outside the dictionary would map to `NaN` (`none`). -/
def seasonOfMonth (m : Nat) : Option String :=
  match m with
  | 12 | 1 | 2 => some "winter"
  | 3 | 4 | 5 => some "spring"
  | 6 | 7 | 8 => some "monsoon"
  | 9 | 10 | 11 => some "autumn"
  | _ => none

/-! ## `FeatureEngineer` (`app/services/feature_engineering.py`)

A feature row is the underlying booking row plus one `Option` cell per
engineered column; `none` doubles for "column not created (yet)" and for a
pandas `NaN` cell, which no claim below needs to distinguish. -/

/-- A row of the feature-engineered frame. -/
structure FeatRow where
  base : Row
  day_of_week : Option Nat := none
  day_of_month : Option Nat := none
  month : Option Nat := none
  quarter : Option Nat := none
  year : Option Int := none
  week_of_year : Option Nat := none
  is_weekend : Option Nat := none
  season : Option String := none
  is_peak_season : Option Nat := none
  is_holiday_season : Option Nat := none
  length_of_stay : Option Int := none
  stay_category : Option String := none
  lead_time_days : Option Int := none
  is_last_minute : Option Nat := none
  price_per_night : Option PFloat := none
  discount_pct : Option PFloat := none
  price_category : Option String := none
  avg_price_7d : Option Rat := none
  avg_price_30d : Option Rat := none
  booking_count_7d : Option Nat := none
  booking_count_30d : Option Nat := none
  prev_booking_price : Option Rat := none
  hotel_total_rooms : Option Nat := none
  occupancy_rate : Option PFloat := none
deriving DecidableEq, Repr

/-- A feature-engineered frame: its column list plus its rows. -/
structure FeatFrame where
  columns : List String
  rows : List FeatRow
deriving DecidableEq, Repr

/-- A cleaned frame viewed as the input of the feature pipeline. -/
def toFeatFrame (df : DFrame) : FeatFrame :=
  { columns := df.columns, rows := df.rows.map (fun r => { base := r }) }

/-- `create_time_features` (lines 15–47). -/
def create_time_features (ff : FeatFrame) : FeatFrame :=
  { columns := ff.columns ++
      ["day_of_week", "day_of_month", "month", "quarter", "year",
       "week_of_year", "is_weekend", "season", "is_peak_season",
       "is_holiday_season"]
    rows := ff.rows.map (fun r =>
      let ci := r.base.check_in_date
      let ymd := civilFromDays ci
      let m := ymd.2.1
      let dow := dayOfWeek ci
      { r with
        day_of_week := some dow
        day_of_month := some ymd.2.2
        month := some m
        quarter := some (quarterOfMonth m)
        year := some ymd.1
        week_of_year := some (isoWeek ci)
        is_weekend := some (if dow == 5 || dow == 6 then 1 else 0)
        season := seasonOfMonth m
        is_peak_season :=
          some (if [10, 11, 12, 1, 2].contains m then 1 else 0)
        is_holiday_season :=
          some (if [12, 1, 4, 10].contains m then 1 else 0) }) }

/-- `pd.cut(length_of_stay, bins=[0,1,3,7,30], labels=[...])` (lines 60–64):
right-closed intervals, values outside every bin map to `NaN`. -/
def cutStay (n : Int) : Option String :=
  if 0 < n ∧ n ≤ 1 then some "short"
  else if 1 < n ∧ n ≤ 3 then some "medium"
  else if 3 < n ∧ n ≤ 7 then some "long"
  else if 7 < n ∧ n ≤ 30 then some "extended"
  else none

/-- `create_stay_features` (lines 49–71).  `hasBookingDate` is
`'booking_date' in df.columns`; the cleaned frames of the pipeline always
have the column. -/
def create_stay_features (hasBookingDate : Bool) (ff : FeatFrame) : FeatFrame :=
  { columns := ff.columns ++ ["length_of_stay", "stay_category"] ++
      (if hasBookingDate then ["lead_time_days", "is_last_minute"] else [])
    rows := ff.rows.map (fun r =>
      let los := r.base.check_out_date - r.base.check_in_date
      let lead := r.base.check_in_date - r.base.booking_date
      { r with
        length_of_stay := some los
        stay_category := cutStay los
        lead_time_days := if hasBookingDate then some lead else none
        is_last_minute :=
          if hasBookingDate then some (if lead ≤ 3 then 1 else 0) else none }) }

/-- `pd.cut(price_per_night, bins=[0,3000,6000,10000,np.inf], labels=[...])`
(lines 87–91): `+inf` lands in the right-closed top bin, `NaN`, `-inf` and
values at or below `0` map to `NaN`. -/
def cutPrice : PFloat → Option String
  | .val x =>
      if 0 < x ∧ x ≤ 3000 then some "budget"
      else if 3000 < x ∧ x ≤ 6000 then some "mid_range"
      else if 6000 < x ∧ x ≤ 10000 then some "premium"
      else if 10000 < x then some "luxury"
      else none
  | .inf => some "luxury"
  | .ninf => none
  | .nan => none

/-- `create_pricing_features` (lines 73–93).  Line 81 divides the price column
by `length_of_stay` with no guard; pandas turns a zero stay into `±inf`/`NaN`
rather than raising.  A missing `length_of_stay` column would raise `KeyError`
in Python; in the model it propagates as `none`. -/
def create_pricing_features (ff : FeatFrame) : FeatFrame :=
  { columns := ff.columns ++
      ["price_per_night", "discount_pct", "price_category"]
    rows := ff.rows.map (fun r =>
      let ppn := r.length_of_stay.map (fun l =>
        pdiv r.base.booking_price ((l : Int) : Rat))
      { r with
        price_per_night := ppn
        discount_pct := some (pclipLower0 (pscale 100
          (pdiv (r.base.base_price - r.base.booking_price) r.base.base_price)))
        price_category := ppn.bind cutPrice }) }

/-- The trailing window of the last `w` elements of `l`
(`Series.rolling(window=w, min_periods=1)` looks at positions
`i−w+1 … i`, i.e. the last at most `w` elements of the prefix ending at the
current row). -/
def lastWindow (w : Nat) (l : List FeatRow) : List FeatRow :=
  l.drop (l.length - w)

/-- `rolling(window=w, min_periods=1).mean()` over the bookings `pre`
(the group prefix up to and including the current row). -/
def wmeanRows (w : Nat) (pre : List FeatRow) : Rat :=
  let win := lastWindow w pre
  (win.map (·.base.booking_price)).sum / (win.length : Rat)

/-- `rolling(window=w, min_periods=1).count()` over the group prefix. -/
def wlenRows (w : Nat) (pre : List FeatRow) : Nat := (lastWindow w pre).length

/-- Fill the rolling and lag columns of one row given `hist`, the rows of the
same hotel that precede it in the sorted frame (lines 104–116): the rolling
windows are windows of the last 7/30 *observations* of the hotel group, and
`prev_booking_price` is the previous price within the (hotel, room) group. -/
def annotRow (hist : List FeatRow) (r : FeatRow) : FeatRow :=
  let pre := hist ++ [r]
  { r with
    avg_price_7d := some (wmeanRows 7 pre)
    avg_price_30d := some (wmeanRows 30 pre)
    booking_count_7d := some (wlenRows 7 pre)
    booking_count_30d := some (wlenRows 30 pre)
    prev_booking_price :=
      ((hist.filter (fun x => x.base.room_id == r.base.room_id)).getLast?).map
        (·.base.booking_price) }

/-- Row-by-row traversal of the sorted frame.  `acc` is the already-traversed
prefix; each row's group history is the same-hotel part of that prefix, which
is exactly what `groupby('hotel_id') … rolling/shift` sees. -/
def aggGo (acc : List FeatRow) : List FeatRow → List FeatRow
  | [] => []
  | r :: rs =>
      annotRow (acc.filter (fun x => x.base.hotel_id == r.base.hotel_id)) r
        :: aggGo (acc ++ [r]) rs

/-- Stable insertion (after every element with a key `≤` the new row's key),
so that `sortByCheckIn` keeps the input order of rows with equal
`check_in_date`. -/
def insRow (acc : List FeatRow) (r : FeatRow) : List FeatRow :=
  match acc with
  | [] => [r]
  | x :: xs =>
      if x.base.check_in_date ≤ r.base.check_in_date then x :: insRow xs r
      else r :: x :: xs

/-- `df.sort_values('check_in_date')` (line 101), determinized as a stable
sort. -/
def sortByCheckIn (rows : List FeatRow) : List FeatRow := rows.foldl insRow []

/-- `create_aggregated_features` (lines 95–118). -/
def create_aggregated_features (ff : FeatFrame) : FeatFrame :=
  { columns := ff.columns ++
      ["avg_price_7d", "booking_count_7d", "avg_price_30d",
       "booking_count_30d", "prev_booking_price"]
    rows := aggGo [] (sortByCheckIn ff.rows) }

/-- `create_occupancy_features` (lines 120–145): look up each hotel's room
count (`none` when the hotel is unknown, as pandas `.map` yields `NaN`), count
the rows of the same (hotel, check-in) group, and broadcast
`rooms_booked / total_rooms * 100` rounded to two decimals onto every row of
the group. -/
def create_occupancy_features (ff : FeatFrame) (s : Store) : FeatFrame :=
  let hotelRooms := fun (hid : Nat) =>
    (s.hotels.find? (fun h => h.id == hid)).map (·.total_rooms)
  { columns := ff.columns ++ ["hotel_total_rooms", "occupancy_rate"]
    rows := ff.rows.map (fun r =>
      let booked := (ff.rows.filter (fun x =>
        x.base.hotel_id == r.base.hotel_id &&
          x.base.check_in_date == r.base.check_in_date)).length
      { r with
        hotel_total_rooms := hotelRooms r.base.hotel_id
        occupancy_rate := (hotelRooms r.base.hotel_id).map (fun tr =>
          proundTo2 (pscale 100 (pdiv (booked : Rat) (tr : Rat)))) }) }

/-- `create_all_features` (lines 147–177); the occupancy stage runs only when
a database session is supplied. -/
def create_all_features (ff : FeatFrame) (db : Option Store) : FeatFrame :=
  let f1 := create_time_features ff
  let f2 := create_stay_features (f1.columns.contains "booking_date") f1
  let f3 := create_pricing_features f2
  let f4 := create_aggregated_features f3
  match db with
  | some s => create_occupancy_features f4 s
  | none => f4

/-! ## `ETLPipeline` (`app/services/etl_pipeline.py`) -/

/-- The load counters returned by `load_to_database` (lines 149–154).  Row
construction cannot fail in the typed model and commits always succeed, so
`errors` is always `0`. -/
structure LoadResult where
  loaded : Nat
  skipped : Nat
  errors : Nat
  total : Nat
deriving DecidableEq, Repr

/-- `Booking(**row.to_dict())` (line 133): the Booking-shaped projection of a
row. -/
def mkBooking (r : Row) : Booking :=
  { hotel_id := r.hotel_id
    room_id := r.room_id
    check_in_date := r.check_in_date
    check_out_date := r.check_out_date
    guest_name := r.guest_name
    guest_email := r.guest_email
    num_guests := r.num_guests
    booking_price := r.booking_price
    base_price := r.base_price
    booking_date := r.booking_date
    booking_source := r.booking_source
    status := r.status }

/-- The existence probe of lines 122–126: is there a stored booking with this
row's (hotel_id, room_id, check_in_date)? -/
def bookingKeyExists (s : Store) (r : Row) : Bool :=
  s.bookings.any (fun b =>
    b.hotel_id == r.hotel_id && b.room_id == r.room_id &&
      b.check_in_date == r.check_in_date)

/-- One iteration of the per-row loop of lines 119–135 over the state
`(store, loaded, skipped)`: skip a row whose key already exists (the pending
adds of the running batch are visible to the probe, as the session flushes
them before querying), insert otherwise. -/
def loadStep (st : Store × Nat × Nat) (r : Row) : Store × Nat × Nat :=
  if bookingKeyExists st.1 r then (st.1, st.2.1, st.2.2 + 1)
  else ({ st.1 with bookings := st.1.bookings ++ [mkBooking r] },
    st.2.1 + 1, st.2.2)

/-- `load_to_database` (lines 91–157).  The batching of the loop only chooses
commit points; since commits always succeed in the model, a single fold over
the rows is equivalent. -/
def load_to_database (s : Store) (rows : List Row) : Store × LoadResult :=
  let t := rows.foldl loadStep (s, 0, 0)
  (t.1, { loaded := t.2.1, skipped := t.2.2, errors := 0, total := rows.length })

/-- `extract_from_database` (lines 29–64).  `if hotel_id:` / `if start_date:`
are Python truthiness tests, so a filter value of `0` disables the filter. -/
def extract_from_database (s : Store) (hotel_id : Option Nat)
    (start_date : Option Int) : DFrame :=
  let q1 := match hotel_id with
    | some hid => if hid == 0 then s.bookings
        else s.bookings.filter (fun b => b.hotel_id == hid)
    | none => s.bookings
  let q2 := match start_date with
    | some sd => if sd == 0 then q1
        else q1.filter (fun b => sd ≤ b.check_in_date)
    | none => q1
  { columns := ["hotel_id", "room_id", "check_in_date", "check_out_date",
      "guest_name", "guest_email", "num_guests", "booking_price",
      "base_price", "booking_date", "booking_source", "status"]
    rows := q2.map (fun b =>
      { hotel_id := b.hotel_id
        room_id := b.room_id
        check_in_date := b.check_in_date
        check_out_date := b.check_out_date
        guest_name := b.guest_name
        guest_email := b.guest_email
        num_guests := b.num_guests
        booking_price := b.booking_price
        base_price := b.base_price
        booking_date := b.booking_date
        booking_source := b.booking_source
        status := b.status }) }

/-- `'sub' in col` on Python strings. -/
def strContains (sub s : String) : Bool := (s.splitOn sub).length != 1

/-- The summary dictionary of `get_feature_summary` (lines 179–202). -/
structure FeatureSummary where
  total_features : Nat
  time_features : List String
  stay_features : List String
  pricing_features : List String
  aggregated_features : List String
  occupancy_features : List String
deriving DecidableEq, Repr

/-- `get_feature_summary` (lines 179–202); note the code's time list names
only six of the ten created time columns. -/
def get_feature_summary (ff : FeatFrame) : FeatureSummary :=
  { total_features := ff.columns.length
    time_features := ff.columns.filter (fun c =>
      (["day_of_week", "month", "quarter", "is_weekend", "season",
        "is_peak_season"] : List String).contains c)
    stay_features := ff.columns.filter (fun c =>
      (["length_of_stay", "stay_category", "lead_time_days",
        "is_last_minute"] : List String).contains c)
    pricing_features := ff.columns.filter (fun c =>
      (["price_per_night", "discount_pct", "price_category"] :
        List String).contains c)
    aggregated_features := ff.columns.filter (fun c =>
      strContains "avg_price" c || strContains "booking_count" c)
    occupancy_features := ff.columns.filter (fun c =>
      strContains "occupancy" c) }

/-- `ETLPipeline.transform` (lines 66–89): validate, and only on a valid
report clean and feature-engineer.  The Python code returns the untouched
input frame alongside an invalid report; the caller never uses it, so the
invalid branch carries `none`. -/
def transform (s : Store) (df : DFrame) (now : Int) :
    Option FeatFrame × DataQualityReport :=
  let report := validate_dataframe df
  if report.is_valid then
    let df_clean := clean_dataframe df now
    (some (create_all_features (toFeatFrame df_clean) (some s)), report)
  else (none, report)

/-- The consolidated pipeline result (lines 187–214); the keys absent from
the failure dictionary are `none`.  Wall-clock duration is not modelled. -/
structure PipelineResult where
  success : Bool
  validation_report : DataQualityReport
  load_result : Option LoadResult
  feature_summary : Option FeatureSummary
  message : String
deriving DecidableEq, Repr

/-- `run_full_pipeline` (lines 159–215) from the already-extracted frame
(extraction from CSV or store is the I/O boundary; `extract_from_database`
above produces such a frame). -/
def run_full_pipeline (s : Store) (df : DFrame) (now : Int) :
    Store × PipelineResult :=
  match transform s df now with
  | (none, report) =>
      (s, { success := false
            validation_report := report
            load_result := none
            feature_summary := none
            message := "Pipeline failed at validation stage" })
  | (some ff, report) =>
      let res := load_to_database s (ff.rows.map (·.base))
      (res.1, { success := true
                validation_report := report
                load_result := some res.2
                feature_summary := some (get_feature_summary ff)
                message := "ETL pipeline completed successfully" })

/-! ## Auxiliary definitions for the specification statements -/

/-- The (hotel_id, date) natural key of a metrics snapshot. -/
def metricKey (m : DailyMetrics) : Nat × Int := (m.hotel_id, m.date)

/-- Trailing window mean over a price sequence: mean of the last at most `w`
elements of `l`. -/
def wmeanRat (w : Nat) (l : List Rat) : Rat :=
  let win := l.drop (l.length - w)
  win.sum / (win.length : Rat)

/-- Observation-window rolling means of a price sequence, carrying the already
processed history. -/
def rollMeansGo (w : Nat) (hist : List Rat) : List Rat → List Rat
  | [] => []
  | x :: xs => wmeanRat w (hist ++ [x]) :: rollMeansGo w (hist ++ [x]) xs

/-- `rolling(window=w, min_periods=1).mean()` applied to a single group's
price sequence. -/
def rollMeans (w : Nat) (xs : List Rat) : List Rat := rollMeansGo w [] xs

/-- Rolling the calendar-day window over the sorted rows, carrying the
already-traversed prefix. -/
def dayWindowGo (days : Nat) (hist : List FeatRow) : List FeatRow → List Rat
  | [] => []
  | r :: rs =>
      let win := (hist ++ [r]).filter (fun x =>
        x.base.hotel_id == r.base.hotel_id &&
          decide (r.base.check_in_date - (days : Int) < x.base.check_in_date) &&
          decide (x.base.check_in_date ≤ r.base.check_in_date))
      ((win.map (·.base.booking_price)).sum / (win.length : Rat))
        :: dayWindowGo days (hist ++ [r]) rs

/-- Modelled from the spec: "7-day and 30-day trailing rolling average
booking_price … grouped per hotel" read as *calendar-day* windows — for each
row of the frame sorted by `check_in_date`, the mean of `booking_price` over
the trailing same-hotel rows whose `check_in_date` lies within the last
`days` calendar days (the window `(d − days, d]`). -/
def dayWindowMeans (days : Nat) (rows : List FeatRow) : List Rat :=
  dayWindowGo days [] (sortByCheckIn rows)

/-- Group-local annotation: fill the rolling/lag columns of each row of a
single hotel's subsequence from that subsequence alone (`hist` is the part of
the group already traversed). -/
def groupAnnot (hist : List FeatRow) : List FeatRow → List FeatRow
  | [] => []
  | r :: rs => annotRow hist r :: groupAnnot (hist ++ [r]) rs

/-- Modelled from the spec: "price_per_night = booking_price / length_of_stay
(undefined/guarded when length_of_stay = 0)" — the guarded division the spec
describes, left undefined on a zero-night stay. -/
def specGuardedPricePerNight (r : Row) : Option Rat :=
  if r.check_out_date - r.check_in_date = 0 then none
  else some (r.booking_price / ((r.check_out_date - r.check_in_date : Int) : Rat))

/-! ## Concrete example data for witnesses and counterexamples -/

/-- A column list containing every booking column. -/
def allBookingColumns : List String :=
  ["hotel_id", "room_id", "check_in_date", "check_out_date", "guest_name",
   "num_guests", "booking_price", "base_price", "guest_email",
   "booking_source", "status", "booking_date"]

/-- A sample input row. -/
def exRow (hid rid : Nat) (ci co : Int) (p : Rat) : Row :=
  { hotel_id := hid, room_id := rid, check_in_date := ci, check_out_date := co,
    guest_name := "guest", guest_email := "guest@mail", num_guests := 2,
    booking_price := p, base_price := p, booking_date := 0,
    booking_source := "direct", status := "confirmed" }

/-- A sample hotel with 5 rooms. -/
def exHotel : Hotel := { id := 1, total_rooms := 5 }

/-- A confirmed one-night booking arriving on day 10. -/
def exBooking1 : Booking :=
  { hotel_id := 1, room_id := 1, check_in_date := 10, check_out_date := 11,
    guest_name := "a", guest_email := "a@mail", num_guests := 2,
    booking_price := 100, base_price := 120, booking_date := 5,
    booking_source := "direct", status := "confirmed" }

/-- A cancelled booking arriving on day 10. -/
def exBooking2 : Booking :=
  { hotel_id := 1, room_id := 2, check_in_date := 10, check_out_date := 11,
    guest_name := "b", guest_email := "b@mail", num_guests := 1,
    booking_price := 50, base_price := 60, booking_date := 5,
    booking_source := "direct", status := "cancelled" }

/-- A sample store: one hotel with 5 rooms, one confirmed one-night booking
and one cancelled booking, both arriving on day 10. -/
def exStore : Store :=
  { hotels := [exHotel]
    bookings := [exBooking1, exBooking2]
    metrics := [] }

/-- The metrics snapshot `calculate_daily_metrics exStore 1 10 0` stores
(its numeric fields evaluate to occupancy_rate = 20, rooms_occupied = 1,
rooms_available = 5, total_revenue = 100, average_daily_rate = 100,
revenue_per_available_room = 20, booking_count = 2, cancellation_count = 1). -/
def exMetric : DailyMetrics := computeMetric exHotel exStore.bookings 1 10 0

/-- `exStore` after the first metrics computation. -/
def exStoreAfter : Store :=
  { exStore with metrics := upsertMetric exStore.metrics exMetric }

/-- The snapshot recomputed at a later wall-clock tick. -/
def exMetric7 : DailyMetrics :=
  computeMetric exHotel exStoreAfter.bookings 1 10 7

/-- `exStoreAfter` after recomputing the same (hotel, date) cell at tick 7. -/
def exStoreAfter7 : Store :=
  { exStoreAfter with metrics := upsertMetric exStoreAfter.metrics exMetric7 }

/-- Two bookings of one hotel 100 days apart: the second one's trailing
7-day calendar window contains only itself, while the rolling window of the
last 7 *observations* still contains the first booking. -/
def ceAggFrame : FeatFrame :=
  { columns := allBookingColumns
    rows := [{ base := exRow 1 1 0 2 100 }, { base := exRow 1 2 100 102 300 }] }

/-- A zero-night booking row (check-out equal to check-in). -/
def ceZeroNightRow : Row := exRow 1 1 5 5 100

/-- A one-row frame holding the zero-night booking. -/
def ceZeroNightFrame : FeatFrame :=
  { columns := allBookingColumns, rows := [{ base := ceZeroNightRow }] }

/-- A two-row batch whose second row has a zero booking price, which the price
check rejects. -/
def ceInvalidFrame : DFrame :=
  { columns := allBookingColumns, rows := [exRow 1 1 0 2 100, exRow 2 1 0 2 0] }

/-- A three-row batch whose first two rows share the dedup key `(1, 5, 10)`. -/
def exDupFrame : DFrame :=
  { columns := allBookingColumns
    rows := [exRow 1 5 10 12 100, exRow 1 5 10 13 150, exRow 2 3 0 2 80] }

/-! ## Helper lemmas -/

theorem cancellationCount_le_bookingCount (bs : List Booking) (hid : Nat)
    (d : Int) : cancellationCount bs hid d ≤ bookingCount bs hid d := by
  induction bs with
  | nil => simp [cancellationCount, bookingCount]
  | cons b t ih =>
      simp only [cancellationCount, bookingCount, List.filter_cons] at ih ⊢
      by_cases hA : (b.hotel_id == hid && b.check_in_date == d) = true
      · by_cases hB : (b.status == "cancelled") = true
        · simp [hA, hB]
          omega
        · simp [hA, hB]
          omega
      · simp [hA]
        exact ih

theorem upsertMetric_map_key_of_any (ms : List DailyMetrics)
    (m : DailyMetrics)
    (h : ms.any (fun x => x.hotel_id == m.hotel_id && x.date == m.date) = true) :
    (upsertMetric ms m).map metricKey = ms.map metricKey := by
  induction ms with
  | nil => simp at h
  | cons x xs ih =>
      by_cases hx : (x.hotel_id == m.hotel_id && x.date == m.date) = true
      · have h1 : x.hotel_id = m.hotel_id := by
          have := (Bool.and_eq_true _ _).mp hx
          exact eq_of_beq this.1
        have h2 : x.date = m.date := by
          have := (Bool.and_eq_true _ _).mp hx
          exact eq_of_beq this.2
        simp [upsertMetric, hx, metricKey, h1, h2]
      · have h' : xs.any (fun x => x.hotel_id == m.hotel_id && x.date == m.date)
            = true := by
          simpa [List.any_cons, hx] using h
        simp [upsertMetric, hx, ih h']

theorem upsertMetric_of_not_any (ms : List DailyMetrics) (m : DailyMetrics)
    (h : ms.any (fun x => x.hotel_id == m.hotel_id && x.date == m.date) = false) :
    upsertMetric ms m = ms ++ [m] := by
  induction ms with
  | nil => simp [upsertMetric]
  | cons x xs ih =>
      simp only [List.any_cons, Bool.or_eq_false_iff] at h
      simp [upsertMetric, h.1, ih h.2]

/-! ## Claim theorems -/

/-- **C10.** Every snapshot produced by `calculate_daily_metrics` counts as
cancellations exactly the bookings arriving on the target date with status
`cancelled` — a status-filtered subset of the arrivals counted (without any
status filter, so including cancelled arrivals) by `booking_count` — and
therefore satisfies `cancellation_count ≤ booking_count`. -/
theorem claim_cancellations_subset_bookings (s : Store) (hid : Nat) (d : Int)
    (now : Nat) (s' : Store) (m : DailyMetrics)
    (h : calculate_daily_metrics s hid d now = .ok (s', m)) :
    m.cancellation_count = cancellationCount s.bookings hid d ∧
    m.booking_count = bookingCount s.bookings hid d ∧
    m.cancellation_count ≤ m.booking_count := by
  cases hf : s.hotels.find? (fun h => h.id == hid) with
  | none => simp [calculate_daily_metrics, hf] at h
  | some hot =>
      simp only [calculate_daily_metrics, hf, Except.ok.injEq,
        Prod.mk.injEq] at h
      have hm : m = computeMetric hot s.bookings hid d now := h.2.symm
      subst hm
      refine ⟨by simp [computeMetric], by simp [computeMetric], ?_⟩
      simpa [computeMetric] using
        cancellationCount_le_bookingCount s.bookings hid d

/-- Witness for **C10** on `exStore`. -/
theorem claim_cancellations_subset_bookings_w :
    calculate_daily_metrics exStore 1 10 0 = .ok (exStoreAfter, exMetric) ∧
    exMetric.cancellation_count ≤ exMetric.booking_count :=
  ⟨by rfl,
    (claim_cancellations_subset_bookings exStore 1 10 0 exStoreAfter exMetric
      (by rfl)).2.2⟩

/-- **C2.** If the stored daily-metrics table has at most one row per
(hotel_id, date) key, it still does after any successful
`calculate_daily_metrics`: an existing row for the key is overwritten in
place (the key sequence of the table is unchanged), and a new row is appended
exactly when no row for the key exists. -/
theorem claim_metrics_upsert_keeps_key_unique (s : Store) (hid : Nat)
    (d : Int) (now : Nat) (s' : Store) (m : DailyMetrics)
    (hnd : (s.metrics.map metricKey).Nodup)
    (h : calculate_daily_metrics s hid d now = .ok (s', m)) :
    (s'.metrics.map metricKey).Nodup ∧
    (if s.metrics.any (fun x => x.hotel_id == hid && x.date == d)
      then s'.metrics.map metricKey = s.metrics.map metricKey
      else s'.metrics = s.metrics ++ [m]) := by
  cases hf : s.hotels.find? (fun h => h.id == hid) with
  | none => simp [calculate_daily_metrics, hf] at h
  | some hot =>
      simp only [calculate_daily_metrics, hf, Except.ok.injEq,
        Prod.mk.injEq] at h
      have hm : m = computeMetric hot s.bookings hid d now := h.2.symm
      have hs : s' = { s with
          metrics := upsertMetric s.metrics (computeMetric hot s.bookings hid d now) } :=
        h.1.symm
      subst hm
      subst hs
      have hmh : (computeMetric hot s.bookings hid d now).hotel_id = hid := by
        simp [computeMetric]
      have hmd : (computeMetric hot s.bookings hid d now).date = d := by
        simp [computeMetric]
      by_cases hany : s.metrics.any (fun x => x.hotel_id == hid && x.date == d)
        = true
      · have hkeys := upsertMetric_map_key_of_any s.metrics
          (computeMetric hot s.bookings hid d now) (by rw [hmh, hmd]; exact hany)
        constructor
        · simpa [hkeys] using hnd
        · simp [hany, hkeys]
      · have hany' : s.metrics.any (fun x => x.hotel_id == hid && x.date == d)
            = false := by
          simpa using hany
        have happ := upsertMetric_of_not_any s.metrics
          (computeMetric hot s.bookings hid d now) (by rw [hmh, hmd]; exact hany')
        constructor
        · rw [happ, List.map_append]
          rw [List.nodup_append]
          refine ⟨hnd, by simp, ?_⟩
          intro a ha ha'
          simp only [List.map_cons, List.map_nil, List.mem_singleton] at ha'
          rcases List.mem_map.mp ha with ⟨x, hx, hkx⟩
          have hxf := (List.any_eq_false.mp hany') x hx
          have hkm : metricKey (computeMetric hot s.bookings hid d now)
              = (hid, d) := by
            simp [metricKey, hmh, hmd]
          have hk : metricKey x = (hid, d) := by rw [hkx, ha', hkm]
          have h1 : x.hotel_id = hid := congrArg Prod.fst hk
          have h2 : x.date = d := congrArg Prod.snd hk
          simp [h1, h2] at hxf
        · simp [hany', happ]

/-- Witness for **C2** on `exStore` (whose metrics table is empty, hence
trivially key-unique). -/
theorem claim_metrics_upsert_keeps_key_unique_w :
    (exStore.metrics.map metricKey).Nodup ∧
    calculate_daily_metrics exStore 1 10 0 = .ok (exStoreAfter, exMetric) ∧
    (exStoreAfter.metrics.map metricKey).Nodup :=
  ⟨by decide, by rfl,
    (claim_metrics_upsert_keeps_key_unique exStore 1 10 0 exStoreAfter exMetric
      (by decide) (by rfl)).1⟩

/-- **C3.** Running `calculate_daily_metrics` twice in a row for the same
hotel and date (the first run only touches the metrics table, so bookings and
hotel are unchanged in between) stores a second snapshot that agrees with the
first in every field except `calculated_at`. -/
theorem claim_recompute_idempotent (s : Store) (hid : Nat) (d : Int)
    (t1 t2 : Nat) (s1 s2 : Store) (m1 m2 : DailyMetrics)
    (h1 : calculate_daily_metrics s hid d t1 = .ok (s1, m1))
    (h2 : calculate_daily_metrics s1 hid d t2 = .ok (s2, m2)) :
    m2 = { m1 with calculated_at := t2 } := by
  cases hf : s.hotels.find? (fun h => h.id == hid) with
  | none => simp [calculate_daily_metrics, hf] at h1
  | some hot =>
      simp only [calculate_daily_metrics, hf, Except.ok.injEq,
        Prod.mk.injEq] at h1
      have hm1 : m1 = computeMetric hot s.bookings hid d t1 := h1.2.symm
      have hs1 : s1 = { s with
          metrics := upsertMetric s.metrics (computeMetric hot s.bookings hid d t1) } :=
        h1.1.symm
      have hf1 : s1.hotels.find? (fun h => h.id == hid) = some hot := by
        rw [hs1]; exact hf
      have hb1 : s1.bookings = s.bookings := by rw [hs1]
      simp only [calculate_daily_metrics, hf1, Except.ok.injEq,
        Prod.mk.injEq] at h2
      have hm2 : m2 = computeMetric hot s1.bookings hid d t2 := h2.2.symm
      rw [hm2, hb1, hm1]
      rfl

/-- Witness for **C3**: the two successive runs on `exStore`. -/
theorem claim_recompute_idempotent_w :
    calculate_daily_metrics exStore 1 10 0 = .ok (exStoreAfter, exMetric) ∧
    calculate_daily_metrics exStoreAfter 1 10 7 = .ok (exStoreAfter7, exMetric7) ∧
    exMetric7 = { exMetric with calculated_at := 7 } :=
  ⟨by rfl, by rfl,
    claim_recompute_idempotent exStore 1 10 0 7 exStoreAfter exStoreAfter7
      exMetric exMetric7 (by rfl) (by rfl)⟩

/-- **C4.** A batch missing at least one required column makes
`validate_dataframe` return a report holding exactly one error — naming the
set of missing columns — and nothing else: no other error, no warning, no
info entry, and no statistics, because the validator returns before any
further check runs. -/
theorem claim_validate_missing_short_circuits (df : DFrame)
    (h : REQUIRED_COLUMNS.filter (fun c => !(df.columns.contains c)) ≠ []) :
    validate_dataframe df =
      { errors := [Msg.missingColumns
          (REQUIRED_COLUMNS.filter (fun c => !(df.columns.contains c)))]
        warnings := [], info := [], stats := none } := by
  have hne : (!(REQUIRED_COLUMNS.filter
      (fun c => !(df.columns.contains c))).isEmpty) = true := by
    cases hc : REQUIRED_COLUMNS.filter (fun c => !(df.columns.contains c)) with
    | nil => exact absurd hc h
    | cons a l => rfl
  simp only [validate_dataframe, hne, if_true]

/-- Witness for **C4**: a frame having only the `hotel_id` column. -/
theorem claim_validate_missing_short_circuits_w :
    REQUIRED_COLUMNS.filter
        (fun c => !((["hotel_id"] : List String).contains c)) ≠ [] ∧
    validate_dataframe { columns := ["hotel_id"], rows := [] } =
      { errors := [Msg.missingColumns
          ["room_id", "check_in_date", "check_out_date", "guest_name",
           "num_guests", "booking_price", "base_price"]]
        warnings := [], info := [], stats := none } :=
  ⟨by decide,
    (claim_validate_missing_short_circuits
      { columns := ["hotel_id"], rows := [] } (by decide)).trans (by decide)⟩

/-- **C1.** Whenever `calculate_daily_metrics` succeeds, the stored
`total_revenue` is the (rounded) sum over the bookings selected as active on
the target date, and that sum contains exactly the term
`booking_price / stay-nights` for each active booking: a one-night booking
contributes its full price on its only active day, and a 4-night booking of
price P is active on exactly its 4 stay days and contributes exactly P/4 on
each of them. -/
theorem claim_revenue_prorated (s : Store) (hid : Nat) (d : Int) (now : Nat)
    (s' : Store) (m : DailyMetrics) (b : Booking)
    (hc : calculate_daily_metrics s hid d now = .ok (s', m))
    (hb : b ∈ activeBookings s.bookings hid d) :
    m.total_revenue = roundTo2 (dailyRevenue (activeBookings s.bookings hid d)) ∧
    dailyRevenue (activeBookings s.bookings hid d)
      = b.booking_price / ((nights b : Int) : Rat)
        + dailyRevenue ((activeBookings s.bookings hid d).erase b) ∧
    (nights b = 1 →
      b.booking_price / ((nights b : Int) : Rat) = b.booking_price) ∧
    (nights b = 4 →
      b.booking_price / ((nights b : Int) : Rat) = b.booking_price / 4 ∧
      ∀ d' : Int, isActive hid d' b = true ↔
        (d' = b.check_in_date ∨ d' = b.check_in_date + 1 ∨
         d' = b.check_in_date + 2 ∨ d' = b.check_in_date + 3)) := by
  refine ⟨?_, ?_, ?_, ?_⟩
  · cases hf : s.hotels.find? (fun h => h.id == hid) with
    | none => simp [calculate_daily_metrics, hf] at hc
    | some hot =>
        simp only [calculate_daily_metrics, hf, Except.ok.injEq,
          Prod.mk.injEq] at hc
        have hm : m = computeMetric hot s.bookings hid d now := hc.2.symm
        subst hm
        simp [computeMetric]
  · have hperm : (activeBookings s.bookings hid d).Perm
        (b :: (activeBookings s.bookings hid d).erase b) :=
      List.perm_cons_erase hb
    have hsum :=
      (hperm.map (fun b => b.booking_price / ((nights b : Int) : Rat))).sum_eq
    simpa [dailyRevenue] using hsum
  · intro h1
    rw [h1]
    norm_num
  · intro h4
    have hact : isActive hid d b = true := (List.mem_filter.mp hb).2
    simp only [isActive, Bool.and_eq_true, Bool.or_eq_true, beq_iff_eq,
      decide_eq_true_eq] at hact
    obtain ⟨⟨⟨hh, hci⟩, hco⟩, hst⟩ := hact
    have hco4 : b.check_out_date = b.check_in_date + 4 := by
      have := h4
      unfold nights at this
      omega
    constructor
    · rw [h4]
      norm_num
    · intro d'
      have hiff : isActive hid d' b = true ↔
          (b.check_in_date ≤ d' ∧ d' < b.check_out_date) := by
        rcases hst with hst | hst <;> simp [isActive, hh, hst]
      rw [hiff]
      omega

/-- Witness for **C1**: the confirmed one-night booking of `exStore`. -/
theorem claim_revenue_prorated_w :
    calculate_daily_metrics exStore 1 10 0 = .ok (exStoreAfter, exMetric) ∧
    exBooking1 ∈ activeBookings exStore.bookings 1 10 ∧
    (exMetric.total_revenue
        = roundTo2 (dailyRevenue (activeBookings exStore.bookings 1 10)) ∧
      nights exBooking1 = 1 ∧
      exBooking1.booking_price / ((nights exBooking1 : Int) : Rat)
        = exBooking1.booking_price) :=
  ⟨by rfl, by decide,
    by
      have h := claim_revenue_prorated exStore 1 10 0 exStoreAfter exMetric
        exBooking1 (by rfl) (by decide)
      exact ⟨h.1, by decide, h.2.2.1 (by decide)⟩⟩

/-- **C5.** When the validator's report on the input batch has at least one
error, the full pipeline returns `success = false` carrying that report, with
no load counters and no feature summary (cleaning, feature engineering and
loading never ran), and the store is returned unchanged — no booking row is
written. -/
theorem claim_pipeline_halts_on_invalid (s : Store) (df : DFrame) (now : Int)
    (h : (validate_dataframe df).is_valid = false) :
    run_full_pipeline s df now =
      (s, { success := false
            validation_report := validate_dataframe df
            load_result := none
            feature_summary := none
            message := "Pipeline failed at validation stage" }) := by
  simp [run_full_pipeline, transform, h]

/-- Witness for **C5**: a two-row batch whose second row has
`booking_price = 0`. -/
theorem claim_pipeline_halts_on_invalid_w :
    (validate_dataframe ceInvalidFrame).is_valid = false ∧
    (run_full_pipeline exStore ceInvalidFrame 0).2.success = false ∧
    (run_full_pipeline exStore ceInvalidFrame 0).1 = exStore :=
  ⟨by decide,
    by rw [claim_pipeline_halts_on_invalid exStore ceInvalidFrame 0 (by decide)],
    by rw [claim_pipeline_halts_on_invalid exStore ceInvalidFrame 0 (by decide)]⟩

/-- Adding a booking during the load loop never removes an existing key. -/
theorem bookingKeyExists_loadStep (st : Store × Nat × Nat) (r r' : Row)
    (h : bookingKeyExists st.1 r' = true) :
    bookingKeyExists (loadStep st r).1 r' = true := by
  by_cases hex : bookingKeyExists st.1 r = true
  · simp only [loadStep, hex, if_true]
    exact h
  · simp only [loadStep, hex, if_false]
    rcases List.any_eq_true.mp h with ⟨b, hb, hpb⟩
    exact List.any_eq_true.mpr ⟨b, List.mem_append_left _ hb, hpb⟩

/-- Keys survive the rest of the load loop. -/
theorem bookingKeyExists_load_foldl (rows : List Row) (st : Store × Nat × Nat)
    (r' : Row) (h : bookingKeyExists st.1 r' = true) :
    bookingKeyExists ((rows.foldl loadStep st).1) r' = true := by
  induction rows generalizing st with
  | nil => exact h
  | cons r t ih =>
      simp only [List.foldl_cons]
      exact ih (loadStep st r) (bookingKeyExists_loadStep st r r' h)

/-- After its own load step, a row's key is present. -/
theorem bookingKeyExists_loadStep_self (st : Store × Nat × Nat) (r : Row) :
    bookingKeyExists (loadStep st r).1 r = true := by
  by_cases hex : bookingKeyExists st.1 r = true
  · simp only [loadStep, hex, if_true]
  · simp only [loadStep, hex, if_false]
    refine List.any_eq_true.mpr ⟨mkBooking r, List.mem_append_right _ ?_, ?_⟩
    · exact List.mem_singleton.mpr rfl
    · simp [mkBooking]

/-- After the load loop, every processed row's key is present in the store. -/
theorem bookingKeyExists_after_load (rows : List Row) (st : Store × Nat × Nat) :
    ∀ r ∈ rows, bookingKeyExists ((rows.foldl loadStep st).1) r = true := by
  induction rows generalizing st with
  | nil => simp
  | cons r t ih =>
      intro r' hr'
      rcases List.mem_cons.mp hr' with rfl | hmem
      · simp only [List.foldl_cons]
        exact bookingKeyExists_load_foldl t (loadStep st r') r'
          (bookingKeyExists_loadStep_self st r')
      · simp only [List.foldl_cons]
        exact ih (loadStep st r) r' hmem

/-- When every row's key is already present, the load loop only skips. -/
theorem load_foldl_all_present (rows : List Row) (s0 : Store) (l0 k0 : Nat)
    (h : ∀ r ∈ rows, bookingKeyExists s0 r = true) :
    rows.foldl loadStep (s0, l0, k0) = (s0, l0, k0 + rows.length) := by
  induction rows generalizing k0 with
  | nil => simp
  | cons r t ih =>
      have hr : bookingKeyExists s0 r = true := h r (List.mem_cons_self r t)
      have hstep : loadStep (s0, l0, k0) r = (s0, l0, k0 + 1) := by
        simp [loadStep, hr]
      simp only [List.foldl_cons, hstep]
      rw [ih (k0 + 1) (fun r hr' => h r (List.mem_cons_of_mem _ hr'))]
      simp only [List.length_cons, Prod.mk.injEq, and_true, true_and]
      omega

/-- **C6.** Loading a batch and then re-loading the identical batch makes the
second load skip every row: its counters satisfy `skipped = total`,
`loaded = 0`, `total = batch size`, because after the first load every row's
(hotel_id, room_id, check_in_date) key matches an existing booking. -/
theorem claim_reload_skips_everything (s : Store) (rows : List Row) :
    (load_to_database ((load_to_database s rows).1) rows).2.skipped
      = (load_to_database ((load_to_database s rows).1) rows).2.total ∧
    (load_to_database ((load_to_database s rows).1) rows).2.loaded = 0 ∧
    (load_to_database ((load_to_database s rows).1) rows).2.total = rows.length ∧
    rows.all (fun r => bookingKeyExists ((load_to_database s rows).1) r) = true := by
  have hall : ∀ r ∈ rows,
      bookingKeyExists ((rows.foldl loadStep (s, 0, 0)).1) r = true :=
    fun r hr => bookingKeyExists_after_load rows (s, 0, 0) r hr
  have hfold :=
    load_foldl_all_present rows ((rows.foldl loadStep (s, 0, 0)).1) 0 0 hall
  have hskip : (load_to_database ((load_to_database s rows).1) rows).2.skipped
      = 0 + rows.length := by
    have hdef : (load_to_database ((load_to_database s rows).1) rows).2.skipped
        = (rows.foldl loadStep ((rows.foldl loadStep (s, 0, 0)).1, 0, 0)).2.2 :=
      rfl
    rw [hdef, hfold]
  have hload : (load_to_database ((load_to_database s rows).1) rows).2.loaded
      = 0 := by
    have hdef : (load_to_database ((load_to_database s rows).1) rows).2.loaded
        = (rows.foldl loadStep ((rows.foldl loadStep (s, 0, 0)).1, 0, 0)).2.1 :=
      rfl
    rw [hdef, hfold]
  have htot : (load_to_database ((load_to_database s rows).1) rows).2.total
      = rows.length := rfl
  refine ⟨?_, hload, htot, List.all_eq_true.mpr hall⟩
  rw [hskip, htot]
  omega

/-- Rows surviving `dropDupKeys` come from the input. -/
theorem dropDupKeys_subset (l : List Row) : ∀ x ∈ dropDupKeys l, x ∈ l := by
  induction l using dropDupKeys.induct with
  | case1 => simp [dropDupKeys]
  | case2 r rs ih =>
      intro x hx
      rw [dropDupKeys] at hx
      rcases List.mem_cons.mp hx with rfl | hx'
      · exact List.mem_cons_self _ _
      · exact List.mem_cons_of_mem _
          (List.mem_of_mem_filter (ih x hx'))

/-- Filtering by a stronger predicate first does not change a filter, when
the second predicate implies the first. -/
theorem filter_filter_of_imp (l : List Row) (p q : Row → Bool)
    (himp : ∀ x, q x = true → p x = true) :
    (l.filter p).filter q = l.filter q := by
  induction l with
  | nil => rfl
  | cons a t ih =>
      by_cases hq : q a = true
      · have hp := himp a hq
        simp [List.filter_cons, hp, hq, ih]
      · by_cases hp : p a = true <;> simp [List.filter_cons, hp, hq, ih]

/-- `drop_duplicates(keep='first')` keeps, of the rows with any given key,
exactly the first one. -/
theorem dropDupKeys_filter_key (l : List Row) (k : Nat × Nat × Int) :
    (dropDupKeys l).filter (fun r => rowKey r == k)
      = (l.filter (fun r => rowKey r == k)).take 1 := by
  induction l using dropDupKeys.induct with
  | case1 => simp [dropDupKeys]
  | case2 r rs ih =>
      rw [dropDupKeys]
      by_cases hk : (rowKey r == k) = true
      · simp only [List.filter_cons, hk, if_true]
        have hnil : (dropDupKeys (rs.filter
            (fun x => !(rowKey x == rowKey r)))).filter
              (fun r => rowKey r == k) = [] := by
          rw [List.filter_eq_nil_iff]
          intro a ha hcontra
          have hmem := dropDupKeys_subset _ a ha
          have hpa := (List.mem_filter.mp hmem).2
          have hak : rowKey a = k := eq_of_beq hcontra
          have hrk : rowKey r = k := eq_of_beq hk
          rw [hak, ← hrk] at hpa
          simp at hpa
        rw [hnil]
        rfl
      · have hk' : (rowKey r == k) = false := by simpa using hk
        simp only [List.filter_cons, hk']
        rw [if_neg Bool.false_ne_true, if_neg Bool.false_ne_true]
        rw [ih]
        apply congrArg (List.take 1)
        apply filter_filter_of_imp
        intro x hx
        have hxk : rowKey x = k := eq_of_beq hx
        have : (rowKey x == rowKey r) = false := by
          by_cases hxr : (rowKey x == rowKey r) = true
          · refine absurd ?_ hk
            rw [← eq_of_beq hxr, hxk]
            exact beq_self_eq_true k
          · simpa using hxr
        simp [this]

/-- **C9.** In a batch that has exactly two rows sharing a dedup key (and no
other repeated key), the validator records the duplicate warning counting
both rows, and cleaning keeps exactly one row with that key — the cleaned
first occurrence. -/
theorem claim_duplicate_pair_warned_then_deduped (df : DFrame) (now : Int)
    (k : Nat × Nat × Int)
    (hcols : REQUIRED_COLUMNS.all (fun c => df.columns.contains c) = true)
    (h2 : (df.rows.filter (fun r => rowKey r == k)).length = 2)
    (hu : df.rows.all (fun r => rowKey r == k ||
        (df.rows.filter (fun x => rowKey x == rowKey r)).length == 1) = true) :
    Msg.duplicates 2 ∈ (validate_dataframe df).warnings ∧
    (clean_dataframe df now).rows.filter (fun r => rowKey r == k)
      = ((df.rows.filter (fun r => rowKey r == k)).map
          (cleanRow df.columns now)).take 1 := by
  constructor
  · have hdup : dupFlagCount df.rows = 2 := by
      unfold dupFlagCount
      have hcongr : df.rows.filter
            (fun r => decide (2 ≤ keyCount df.rows (rowKey r)))
          = df.rows.filter (fun r => rowKey r == k) := by
        apply List.filter_congr
        intro r hr
        by_cases hk : (rowKey r == k) = true
        · have hkr : rowKey r = k := eq_of_beq hk
          have hcnt : keyCount df.rows (rowKey r) = 2 := by
            unfold keyCount
            rw [hkr]
            exact h2
          simp [hcnt, hk]
        · have hone := (List.all_eq_true.mp hu) r hr
          rw [Bool.or_eq_true] at hone
          rcases hone with hone | hone
          · exact absurd hone hk
          · have hcnt : keyCount df.rows (rowKey r) = 1 := eq_of_beq hone
            simp [hcnt, hk]
      rw [hcongr, h2]
    have hmiss : REQUIRED_COLUMNS.filter (fun c => !(df.columns.contains c))
        = [] := by
      rw [List.filter_eq_nil_iff]
      intro c hc
      have := (List.all_eq_true.mp hcols) c hc
      simpa using this
    have hrows : df.rows.isEmpty = false := by
      cases hr : df.rows with
      | nil => rw [hr] at h2; simp at h2
      | cons a t => rfl
    simp only [validate_dataframe, hmiss, List.isEmpty_nil, Bool.not_true,
      if_false, hrows, hdup]
    simp
  · show (dropDupKeys (df.rows.map (cleanRow df.columns now))).filter
        (fun r => rowKey r == k) = _
    rw [dropDupKeys_filter_key]
    rw [List.filter_map]
    rw [← List.map_take, ← List.map_take]
    rfl

/-- Witness for **C9**: the first two rows of `exDupFrame` share key
`(1, 5, 10)`. -/
theorem claim_duplicate_pair_warned_then_deduped_w :
    (REQUIRED_COLUMNS.all (fun c => exDupFrame.columns.contains c) = true ∧
      (exDupFrame.rows.filter
        (fun r => rowKey r == ((1, 5, 10) : Nat × Nat × Int))).length = 2 ∧
      exDupFrame.rows.all (fun r => rowKey r == ((1, 5, 10) : Nat × Nat × Int) ||
        (exDupFrame.rows.filter
          (fun x => rowKey x == rowKey r)).length == 1) = true) ∧
    Msg.duplicates 2 ∈ (validate_dataframe exDupFrame).warnings :=
  ⟨⟨by decide, by decide, by decide⟩,
    (claim_duplicate_pair_warned_then_deduped exDupFrame 0 (1, 5, 10)
      (by decide) (by decide) (by decide)).1⟩

/-- The rolling mean of a row window is the rolling mean of its price
sequence. -/
theorem wmeanRows_eq_wmeanRat (w : Nat) (pre : List FeatRow) :
    wmeanRows w pre = wmeanRat w (pre.map (·.base.booking_price)) := by
  simp [wmeanRows, wmeanRat, lastWindow, ← List.map_drop, List.length_map]

/-- `rolling(window=w, min_periods=1).count()` is `min (position+1) w`. -/
theorem wlenRows_eq_min (w : Nat) (pre : List FeatRow) :
    wlenRows w pre = min pre.length w := by
  simp only [wlenRows, lastWindow, List.length_drop]
  omega

/-- Extracting the 7-observation mean column of a group annotation gives the
rolling means of the group's price sequence. -/
theorem groupAnnot_map_avg7 (G : List FeatRow) :
    ∀ hist : List FeatRow,
      (groupAnnot hist G).map (·.avg_price_7d)
        = (rollMeansGo 7 (hist.map (·.base.booking_price))
            (G.map (·.base.booking_price))).map some := by
  induction G with
  | nil => intro hist; rfl
  | cons r rs ih =>
      intro hist
      simp only [groupAnnot, rollMeansGo, List.map_cons]
      congr 1
      · simp [annotRow, wmeanRows_eq_wmeanRat, List.map_append]
      · rw [ih (hist ++ [r])]
        simp [List.map_append]

/-- As `groupAnnot_map_avg7`, for the 30-observation window. -/
theorem groupAnnot_map_avg30 (G : List FeatRow) :
    ∀ hist : List FeatRow,
      (groupAnnot hist G).map (·.avg_price_30d)
        = (rollMeansGo 30 (hist.map (·.base.booking_price))
            (G.map (·.base.booking_price))).map some := by
  induction G with
  | nil => intro hist; rfl
  | cons r rs ih =>
      intro hist
      simp only [groupAnnot, rollMeansGo, List.map_cons]
      congr 1
      · simp [annotRow, wmeanRows_eq_wmeanRat, List.map_append]
      · rw [ih (hist ++ [r])]
        simp [List.map_append]

/-- Extracting the 7-observation count column of a group annotation gives
`min (group position + 1) 7`. -/
theorem groupAnnot_map_cnt7 (G : List FeatRow) :
    ∀ hist : List FeatRow,
      (groupAnnot hist G).map (·.booking_count_7d)
        = (List.range G.length).map
            (fun i => some (min (hist.length + i + 1) 7)) := by
  induction G with
  | nil => intro hist; rfl
  | cons r rs ih =>
      intro hist
      simp only [groupAnnot, List.map_cons, List.length_cons,
        List.range_succ_eq_map, List.map_map]
      congr 1
      · show (annotRow hist r).booking_count_7d = some (min (hist.length + 0 + 1) 7)
        rw [show (annotRow hist r).booking_count_7d
            = some (wlenRows 7 (hist ++ [r])) from rfl, wlenRows_eq_min]
        simp [List.length_append]
      · rw [ih (hist ++ [r])]
        simp only [List.length_append, List.length_cons, List.length_nil,
          Function.comp]
        apply List.map_congr_left
        intro i _
        congr 1
        omega

/-- As `groupAnnot_map_cnt7`, for the 30-observation window. -/
theorem groupAnnot_map_cnt30 (G : List FeatRow) :
    ∀ hist : List FeatRow,
      (groupAnnot hist G).map (·.booking_count_30d)
        = (List.range G.length).map
            (fun i => some (min (hist.length + i + 1) 30)) := by
  induction G with
  | nil => intro hist; rfl
  | cons r rs ih =>
      intro hist
      simp only [groupAnnot, List.map_cons, List.length_cons,
        List.range_succ_eq_map, List.map_map]
      congr 1
      · show (annotRow hist r).booking_count_30d
          = some (min (hist.length + 0 + 1) 30)
        rw [show (annotRow hist r).booking_count_30d
            = some (wlenRows 30 (hist ++ [r])) from rfl, wlenRows_eq_min]
        simp [List.length_append]
      · rw [ih (hist ++ [r])]
        simp only [List.length_append, List.length_cons, List.length_nil,
          Function.comp]
        apply List.map_congr_left
        intro i _
        congr 1
        omega

/-- Restricting the traversal of the sorted frame to one hotel's rows is the
group-local annotation of that hotel's subsequence: what
`groupby('hotel_id') … rolling/shift` computes per group. -/
theorem aggGo_filter_hotel (h : Nat) (L : List FeatRow) :
    ∀ acc : List FeatRow,
      (aggGo acc L).filter (fun r => r.base.hotel_id == h)
        = groupAnnot (acc.filter (fun r => r.base.hotel_id == h))
            (L.filter (fun r => r.base.hotel_id == h)) := by
  induction L with
  | nil => intro acc; rfl
  | cons r rs ih =>
      intro acc
      by_cases hr : (r.base.hotel_id == h) = true
      · have hrh : r.base.hotel_id = h := eq_of_beq hr
        simp only [aggGo, List.filter_cons]
        have hbase : ((annotRow (acc.filter
            (fun x => x.base.hotel_id == r.base.hotel_id)) r).base.hotel_id
              == h) = true := hr
        rw [hbase, hr]
        simp only [if_true]
        rw [groupAnnot]
        congr 1
        · rw [hrh]
        · rw [ih (acc ++ [r])]
          congr 1
          simp [List.filter_append, hr]
      · have hrf : (r.base.hotel_id == h) = false := by simpa using hr
        simp only [aggGo, List.filter_cons]
        have hbase : ((annotRow (acc.filter
            (fun x => x.base.hotel_id == r.base.hotel_id)) r).base.hotel_id
              == h) = false := hrf
        rw [hbase, hrf]
        simp only [Bool.false_eq_true, if_false]
        rw [ih (acc ++ [r])]
        congr 1
        simp [List.filter_append, hrf]

/-- **C7 (amended).** Per hotel, the columns created by
`create_aggregated_features` are rolling aggregates over the last 7 and 30
*observations* (rows) of that hotel's subsequence of the frame sorted by
check-in date — not over 7/30 calendar days, the `7d`/`30d` column names
notwithstanding: `avg_price_7d`/`avg_price_30d` are the trailing
7- and 30-observation means of booking_price (at least 1 observation — the row
itself — is always in the window), and `booking_count_7d`/`booking_count_30d`
equal `min (group position + 1) 7` resp. `30`. -/
theorem claim_rolling_windows_count_rows_not_days (ff : FeatFrame) (h : Nat) :
    ((create_aggregated_features ff).rows.filter
        (fun r => r.base.hotel_id == h)).map (·.avg_price_7d)
      = (rollMeans 7 (((sortByCheckIn ff.rows).filter
          (fun r => r.base.hotel_id == h)).map (·.base.booking_price))).map some
    ∧ ((create_aggregated_features ff).rows.filter
        (fun r => r.base.hotel_id == h)).map (·.avg_price_30d)
      = (rollMeans 30 (((sortByCheckIn ff.rows).filter
          (fun r => r.base.hotel_id == h)).map (·.base.booking_price))).map some
    ∧ ((create_aggregated_features ff).rows.filter
        (fun r => r.base.hotel_id == h)).map (·.booking_count_7d)
      = (List.range ((sortByCheckIn ff.rows).filter
          (fun r => r.base.hotel_id == h)).length).map
            (fun i => some (min (i + 1) 7))
    ∧ ((create_aggregated_features ff).rows.filter
        (fun r => r.base.hotel_id == h)).map (·.booking_count_30d)
      = (List.range ((sortByCheckIn ff.rows).filter
          (fun r => r.base.hotel_id == h)).length).map
            (fun i => some (min (i + 1) 30)) := by
  have hfilter := aggGo_filter_hotel h (sortByCheckIn ff.rows) []
  refine ⟨?_, ?_, ?_, ?_⟩
  · show ((aggGo [] (sortByCheckIn ff.rows)).filter _).map _ = _
    rw [hfilter, groupAnnot_map_avg7]
    rfl
  · show ((aggGo [] (sortByCheckIn ff.rows)).filter _).map _ = _
    rw [hfilter, groupAnnot_map_avg30]
    rfl
  · show ((aggGo [] (sortByCheckIn ff.rows)).filter _).map _ = _
    rw [hfilter, groupAnnot_map_cnt7]
    simp
  · show ((aggGo [] (sortByCheckIn ff.rows)).filter _).map _ = _
    rw [hfilter, groupAnnot_map_cnt30]
    simp

/-- **C7 (counterexample).** Two bookings of one hotel 100 days apart (prices
100 and 300): the code's `avg_price_7d` on the second row is 200 — the
100-day-old first booking is still inside the window of the last 7
*observations* — while the trailing 7-*calendar-day* average the claim
describes is 300; likewise `booking_count_7d` is 2 where a 7-day window
holds 1 booking.  So the claim's day-window reading is false of the code. -/
theorem claim_rolling_windows_day_reading_false :
    ((create_aggregated_features ceAggFrame).rows.map (·.avg_price_7d))
      = [some 100, some 200] ∧
    dayWindowMeans 7 ceAggFrame.rows = [100, 300] ∧
    ¬ (((create_aggregated_features ceAggFrame).rows.map (·.avg_price_7d))
        = (dayWindowMeans 7 ceAggFrame.rows).map some) ∧
    ((create_aggregated_features ceAggFrame).rows.map (·.booking_count_7d))
      = [some 1, some 2] := by
  have h1 : ((create_aggregated_features ceAggFrame).rows.map (·.avg_price_7d))
      = [some 100, some 200] := by
    norm_num [create_aggregated_features, sortByCheckIn, insRow, aggGo,
      annotRow, wmeanRows, wmeanRat, lastWindow, ceAggFrame, exRow]
  have h2 : dayWindowMeans 7 ceAggFrame.rows = [100, 300] := by
    norm_num [dayWindowMeans, dayWindowGo, sortByCheckIn, insRow, ceAggFrame,
      exRow]
  refine ⟨h1, h2, ?_, ?_⟩
  · rw [h1, h2]
    decide
  · norm_num [create_aggregated_features, sortByCheckIn, insRow, aggGo,
      annotRow, wlenRows, lastWindow, ceAggFrame, exRow]

/-- **C8 (amended).** The pricing stage computes `price_per_night` by the
*unguarded* pandas division `booking_price / length_of_stay`: on the rows
coming out of the stay stage the column equals
`pdiv booking_price (check_out − check_in)`, which agrees with the spec's
guarded division whenever the stay is nonzero, but on a zero-night stay —
where the spec leaves the value undefined — the code stores `+inf` for a
positive price instead. -/
theorem claim_price_per_night_unguarded (ff : FeatFrame) (hasBD : Bool) :
    ((create_pricing_features (create_stay_features hasBD ff)).rows.map
        (·.price_per_night))
      = ff.rows.map (fun r => some (pdiv r.base.booking_price
          ((r.base.check_out_date - r.base.check_in_date : Int) : Rat))) ∧
    ∀ r : Row,
      (r.check_out_date - r.check_in_date ≠ 0 →
        pdiv r.booking_price
            ((r.check_out_date - r.check_in_date : Int) : Rat)
          = PFloat.val (r.booking_price
              / ((r.check_out_date - r.check_in_date : Int) : Rat)) ∧
        specGuardedPricePerNight r
          = some (r.booking_price
              / ((r.check_out_date - r.check_in_date : Int) : Rat))) ∧
      (r.check_out_date - r.check_in_date = 0 →
        specGuardedPricePerNight r = none ∧
        (0 < r.booking_price →
          pdiv r.booking_price
            ((r.check_out_date - r.check_in_date : Int) : Rat)
            = PFloat.inf)) := by
  constructor
  · simp only [create_pricing_features, create_stay_features, List.map_map]
    rfl
  · intro r
    constructor
    · intro hne
      have hcast : ((r.check_out_date - r.check_in_date : Int) : Rat) ≠ 0 := by
        exact_mod_cast hne
      refine ⟨?_, by simp [specGuardedPricePerNight, hne]⟩
      unfold pdiv
      rw [if_pos hcast]
    · intro hz
      refine ⟨by simp [specGuardedPricePerNight, hz], ?_⟩
      intro hp
      rw [hz]
      simp [pdiv, hp]

/-- Witness for **C8 (amended)** on the zero-night one-row frame. -/
theorem claim_price_per_night_unguarded_w :
    ceZeroNightRow.check_out_date - ceZeroNightRow.check_in_date = 0 ∧
    0 < ceZeroNightRow.booking_price ∧
    specGuardedPricePerNight ceZeroNightRow = none ∧
    pdiv ceZeroNightRow.booking_price
      ((ceZeroNightRow.check_out_date - ceZeroNightRow.check_in_date : Int) : Rat)
      = PFloat.inf :=
  ⟨by decide, by decide,
    (((claim_price_per_night_unguarded ceZeroNightFrame true).2
      ceZeroNightRow).2 (by decide)).1,
    (((claim_price_per_night_unguarded ceZeroNightFrame true).2
      ceZeroNightRow).2 (by decide)).2 (by decide)⟩

/-- **C8 (counterexample).** On the one-row batch whose booking has
`check_out = check_in` (so `length_of_stay = 0`), the pricing stage does not
leave `price_per_night` undefined: it computes `+inf` (pandas zero-division),
which even flows on into `price_category = "luxury"`, while the spec's
guarded division is undefined there. -/
theorem claim_price_per_night_guard_false :
    ((create_pricing_features (create_stay_features true
        ceZeroNightFrame)).rows.map (·.price_per_night))
      = [some PFloat.inf] ∧
    ((create_pricing_features (create_stay_features true
        ceZeroNightFrame)).rows.map (·.price_category))
      = [some "luxury"] ∧
    specGuardedPricePerNight ceZeroNightRow = none ∧
    (some PFloat.inf : Option PFloat)
      ≠ (specGuardedPricePerNight ceZeroNightRow).map PFloat.val := by
  refine ⟨by decide, by decide, by decide, by decide⟩
